import Mathlib

/-!
Verification development for the Citizen Safety AI Assistant RAG backend.

Shallow embedding of `backend/app/rag/pipeline.py` and
`backend/app/rag/routes.py`. External services (the Presidio PII engine,
the Pinecone vector store, the OpenRouter generation model, the Upstash
Redis cache, the document loader/splitter) are modelled as explicit
environment parameters: each call site of the Python code consults the
corresponding field of the environment, and fallible calls return
`Except`, mirroring the `try/except` structure of the source.
Python floats are modelled as rationals; Python `round(x, n)` is modelled
by round-half-to-even at `n` decimal digits.
-/

set_option autoImplicit false

namespace CitizenSafety

/-! ### Python `round` on rationals (round half to even) -/

/-- Round a rational to the nearest integer, ties to even
(the behaviour of Python's builtin `round`). -/
def roundHalfEven (x : ℚ) : ℤ :=
  let f := ⌊x⌋
  let r := x - (f : ℚ)
  if r < 1/2 then f
  else if 1/2 < r then f + 1
  else if f % 2 = 0 then f else f + 1

/-- Python `round(x, d)` on rationals. -/
def pyRound (d : ℕ) (x : ℚ) : ℚ :=
  (roundHalfEven (x * (10 : ℚ) ^ d) : ℚ) / (10 : ℚ) ^ d

/-! ### PII masking (`mask_pii`, pipeline.py lines 109-133)

The Presidio analyzer and anonymizer are external engines; they are
modelled as fields of `MaskEnv`.  A raised exception is an `Except.error`
value. -/

/-- One detected PII span, as built at pipeline.py lines 123-129. -/
structure PiiEntity where
  type : String
  score : ℚ
  start : ℕ
  stop : ℕ
  deriving Repr, DecidableEq

/-- Environment for `mask_pii`: the external Presidio engines.
`analyze` returns the recognizer results for a text; `anonymize`
masks a text given kept results.  `Except.error` models a raised
exception anywhere inside the `try` block. -/
structure MaskEnv where
  analyze : String → Except String (List PiiEntity)
  anonymize : String → List PiiEntity → Except String String

/-- `mask_pii` (pipeline.py lines 109-133): analyze, keep results with
score ≥ 0.3, anonymize, and report the kept entities with scores rounded
to two decimals; on any internal failure return the original text with
`found = false` and no entities. -/
def mask_pii (env : MaskEnv) (text : String) : String × Bool × List PiiEntity :=
  match env.analyze text with
  | .error _ => (text, false, [])
  | .ok rs =>
    let results := rs.filter (fun r => (3 : ℚ)/10 ≤ r.score)
    match env.anonymize text results with
    | .error _ => (text, false, [])
    | .ok masked =>
      (masked, decide (0 < results.length),
        results.map (fun r => { r with score := pyRound 2 r.score }))

/-! ### Abuse filter (`is_abusive`, pipeline.py lines 136-145)

The Python code runs `re.search(r'\b' + re.escape(word) + r'\b',
text.lower())` for each deny-listed word.  The regex machinery is
embedded directly: a `\b` word boundary holds between two positions iff
exactly one of the adjacent characters is a word character. -/

/-- Python `str.lower()`, character by character. -/
def pyLower (s : String) : String := String.mk (s.data.map Char.toLower)

/-- Python `str.strip()`: drop whitespace from both ends. -/
def pyStrip (s : String) : String :=
  String.mk (((s.data.dropWhile Char.isWhitespace).reverse.dropWhile Char.isWhitespace).reverse)

/-- Regex word character (`\w`): alphanumeric or underscore. -/
def isWordChar (c : Char) : Bool := c.isAlphanum || c == '_'

/-- Word-character test on an optional character; the absent character at
either end of the text counts as a non-word character. -/
def isWordCharOpt : Option Char → Bool
  | none => false
  | some c => isWordChar c

/-- `\b`: a word boundary lies between two (optional) characters iff
exactly one of them is a word character. -/
def wordBoundary (a b : Option Char) : Bool := isWordCharOpt a != isWordCharOpt b

/-- Does `pat` occur as a literal prefix of `txt`? -/
def matchesAt : List Char → List Char → Bool
  | [], _ => true
  | _ :: _, [] => false
  | p :: ps, t :: ts => p == t && matchesAt ps ts

/-- Does `\b pat \b` match at the start of `txt`, where `prev` is the
character immediately before this position (none at the very start)? -/
def matchWholeAt (pat : List Char) (prev : Option Char) (txt : List Char) : Bool :=
  matchesAt pat txt && wordBoundary prev pat.head? &&
    wordBoundary pat.getLast? ((txt.drop pat.length).head?)

/-- `re.search` for `\b pat \b`: try every position of `txt`, threading
the previous character for the left boundary test. -/
def searchWhole (pat : List Char) : Option Char → List Char → Bool
  | prev, [] => matchWholeAt pat prev []
  | prev, c :: rest => matchWholeAt pat prev (c :: rest) || searchWhole pat (some c) rest

/-- The deny list of pipeline.py lines 138-141. -/
def bad_words : List String :=
  ["stupid", "idiot", "dumb", "hate", "kill", "shut up",
   "useless", "nonsense", "pagal", "bevkuf", "chutiya", "madarchod"]

/-- `is_abusive` (pipeline.py lines 136-145): case-insensitive whole-word
search of each deny-listed term in the text. -/
def is_abusive (text : String) : Bool :=
  bad_words.any (fun w => searchWhole w.data none (pyLower text).data)

/-- Declarative reading of "text contains `w` as a whole word,
case-insensitively": the lowercased text splits as `pre ++ w ++ post`
with a word boundary on each side of `w`. -/
def ContainsWholeWord (t w : String) : Prop :=
  ∃ pre post : List Char, (pyLower t).data = pre ++ w.data ++ post
    ∧ wordBoundary pre.getLast? w.data.head? = true
    ∧ wordBoundary w.data.getLast? post.head? = true

/-! ### Documents, result values and the orchestrator
(`search_and_respond`, pipeline.py lines 432-546) -/

/-- A LangChain document/chunk: page content plus the metadata fields the
pipeline reads or writes (`source`, `page`, `is_temporary`,
`upload_timestamp`).  A `none` field models an absent metadata key. -/
structure Doc where
  page_content : String
  source : Option String := none
  page : Option Int := none
  is_temporary : Option Bool := none
  upload_timestamp : Option String := none
  deriving Repr, DecidableEq

/-- One formatted source entry (pipeline.py lines 531-536). -/
structure SourceEntry where
  source_id : ℕ
  file : String
  page : Int
  preview : String
  deriving Repr, DecidableEq

/-- A Python value stored in the result dictionary of
`search_and_respond`. -/
inductive RVal where
  | vnull
  | vstr (s : String)
  | vnum (q : ℚ)
  | vbool (b : Bool)
  | vsources (ss : List SourceEntry)
  | ventities (es : List PiiEntity)
  deriving Repr, DecidableEq

/-- The result dictionary: keys in insertion order, as written in the
Python dict literals. -/
abbrev RDict := List (String × RVal)

/-- Python `d[k]` / `d.get(k)` on the modelled dictionary. -/
def rget (d : RDict) (k : String) : Option RVal :=
  (d.find? (fun kv => kv.1 == k)).map (fun kv => kv.2)

/-- One chat-history message (a dict with `role` and `content`). -/
structure ChatMsg where
  role : String
  content : String
  deriving Repr, DecidableEq

/-- External calls performed by the pipeline, in order.  `maskCall`
records the text handed to the PII engine, `searchCall` the text embedded
and searched against the knowledge base, `generateCall` the question text
sent to the generation model. -/
inductive Effect where
  | maskCall (text : String)
  | connectDb
  | searchCall (text : String)
  | generateCall (question : String)
  deriving Repr, DecidableEq

/-- Environment of `search_and_respond`: the external services it
consults.  `dbAvailable` models `get_vector_db()` returning a connection
or `None`; `search` models `similarity_search_with_score` (an exception
is `Except.error`); `generate` models `generate_response(question,
context, history, ...)`, returning the response text and its latency, or
an exception. -/
structure PipelineEnv where
  maskEnv : MaskEnv
  dbAvailable : Bool
  search : String → Except String (List (Doc × ℚ))
  generate : String → String → String → Except String (String × ℚ)

/-- The uniform rejection dictionary built on each failure path of
`search_and_respond` (pipeline.py lines 442-448, 455-461, 469-475,
478-484, 517-523): same five keys, only the error message differs. -/
def rejection (msg : String) : RDict :=
  [("error", .vstr msg), ("response", .vnull), ("sources", .vsources []),
   ("confidence", .vnum 0), ("latency", .vnum 0)]

/-- Chat-history formatting (pipeline.py lines 503-510): last six
messages, each prefixed by its role. -/
def formatHistory (chat_history : List ChatMsg) : String :=
  if chat_history.isEmpty then "No previous history."
  else
    let history_msgs := chat_history.drop (chat_history.length - 6)
    let formatted := history_msgs.map (fun msg =>
      (if msg.role == "user" then "User: " else "Assistant: ") ++ msg.content)
    String.intercalate "\n" formatted

/-- File-name extraction for source attribution (pipeline.py line 529):
`source_path.replace('\\', '/').split('/')[-1].replace('.pdf', '')`. -/
def sourceFile (source_path : String) : String :=
  (((source_path.replace "\\" "/").splitOn "/").getLastD "").replace ".pdf" ""

/-- Source formatting (pipeline.py lines 526-536): 1-based id, stripped
file name, 1-based page, 300-character preview. -/
def mkSources (relevant_docs : List Doc) : List SourceEntry :=
  relevant_docs.enum.map (fun p =>
    { source_id := p.1 + 1,
      file := sourceFile ((p.2.source).getD "Unknown"),
      page := (p.2.page).getD 0 + 1,
      preview := p.2.page_content.take 300 })

/-- `search_and_respond` (pipeline.py lines 432-546).  Returns the result
dictionary together with the trace of external calls performed, in
order. -/
def search_and_respond (env : PipelineEnv) (question : String)
    (chat_history : List ChatMsg) : RDict × List Effect :=
  if is_abusive question then
    (rejection "Professional queries only.", [])
  else
    let m := mask_pii env.maskEnv question
    let safe_question := m.1
    let pii_found := m.2.1
    let pii_entities := m.2.2
    let effs := [Effect.maskCall question, Effect.connectDb]
    if !env.dbAvailable then
      (rejection "Knowledge base not initialized. Please check Pinecone configuration.", effs)
    else
      match env.search safe_question with
      | .error _ =>
        (rejection "⚠️ Network traffic is high on the Embedding Service. Please retry in 5 seconds.",
         effs ++ [Effect.searchCall safe_question])
      | .ok [] =>
        (rejection "No relevant information found.", effs ++ [Effect.searchCall safe_question])
      | .ok (top :: rest) =>
        let results := top :: rest
        let relevant_docs := results.map (fun dq => dq.1)
        let score_distance := top.2
        let confidence := score_distance * 100
        let context := String.intercalate "\n\n" (relevant_docs.map (fun d => d.page_content))
        let history_text := formatHistory chat_history
        match env.generate safe_question context history_text with
        | .error _ =>
          (rejection "AI temporarily unavailable. Please try again.",
           effs ++ [Effect.searchCall safe_question, Effect.generateCall safe_question])
        | .ok (response, latency) =>
          ([("response", .vstr response),
            ("sources", .vsources (mkSources relevant_docs)),
            ("confidence", .vnum (pyRound 1 confidence)),
            ("latency", .vnum (pyRound 2 latency)),
            ("pii_masked", .vbool pii_found),
            ("pii_entities", .ventities pii_entities),
            ("masked_question", if pii_found then .vstr safe_question else .vnull)],
           effs ++ [Effect.searchCall safe_question, Effect.generateCall safe_question])

/-! ### Incremental ingestion (`add_documents_incremental`,
pipeline.py lines 178-247) and temporary-knowledge clearing
(`clear_temporary_knowledge`, lines 250-270)

The Pinecone index is modelled as a list of chunks; `delete` with a
metadata filter is list filtering, `add_documents` is appending. -/

/-- Outcome of `os.path.exists` plus `PyMuPDFLoader(...).load()` for one
file path: the path does not exist, the loader raised, or it produced
documents. -/
inductive LoadOutcome where
  | missing
  | loadError
  | ok (docs : List Doc)
  deriving Repr

/-- Environment for `add_documents_incremental`: the filesystem/loader,
the text splitter (mapping one document's content to its pieces,
metadata being copied onto every piece as `split_documents` does), the
current timestamp, the store connection, and whether the delete+add
block succeeds (`Except`-style: `addOk = false` models an exception
inside the `try` at lines 217-245, after which the function returns 0). -/
structure IngestEnv where
  dbAvailable : Bool
  load : String → LoadOutcome
  split : Doc → List String
  now : String
  addOk : Bool

/-- Tag loaded documents as temporary (pipeline.py lines 208-210) and
split them into chunks (line 212), each chunk inheriting its document's
metadata. -/
def tagAndSplit (env : IngestEnv) (docs : List Doc) : List Doc :=
  (docs.map (fun d =>
      { d with is_temporary := some true, upload_timestamp := some env.now })).flatMap
    (fun d => (env.split d).map (fun piece => { d with page_content := piece }))

/-- The chunks produced by the loading loop (pipeline.py lines 200-214):
missing paths and loader failures contribute nothing. -/
def producedChunks (env : IngestEnv) (file_paths : List String) : List Doc :=
  file_paths.flatMap (fun p =>
    match env.load p with
    | .ok docs => tagAndSplit env docs
    | _ => [])

/-- The unique non-empty `source` metadata values of the new chunks
(pipeline.py lines 219-224; Python `if source:` skips `None` and `""`). -/
def uniqueSources (new_chunks : List Doc) : List String :=
  ((new_chunks.filterMap (fun c => c.source)).filter (fun s => s != "")).dedup

/-- Does a stored chunk match the Pinecone delete filter
`{"source": s, "is_temporary": True}` for some uploaded source `s`
(pipeline.py lines 233-238)? -/
def deleteMatch (srcs : List String) (c : Doc) : Bool :=
  (match c.source with
   | some s => srcs.contains s
   | none => false) && c.is_temporary == some true

/-- `add_documents_incremental` (pipeline.py lines 178-247) over a
modelled store: returns the Python return value and the new store
contents.  An exception while uploading (`addOk = false`) returns 0; the
safety delete is modelled as having already taken effect, matching the
code order (delete first, then add). -/
def add_documents_incremental (env : IngestEnv) (store : List Doc)
    (file_paths : List String) : ℕ × List Doc :=
  if !env.dbAvailable then (0, store)
  else
    let new_chunks := producedChunks env file_paths
    if new_chunks.isEmpty then (new_chunks.length, store)
    else
      let srcs := uniqueSources new_chunks
      let store1 := store.filter (fun c => !deleteMatch srcs c)
      if env.addOk then (new_chunks.length, store1 ++ new_chunks)
      else (0, store1)

/-- `clear_temporary_knowledge` (pipeline.py lines 250-270): delete by
the metadata filter `{"is_temporary": True}`; `ok = false` models an
exception (client init or delete failure), returning `False` with the
store untouched. -/
def clear_temporary_knowledge (ok : Bool) (store : List Doc) : Bool × List Doc :=
  if ok then (true, store.filter (fun c => !(c.is_temporary == some true)))
  else (false, store)

/-! ### Circuit breaker (`llm_breaker`, pipeline.py line 32; invoked at
line 418)

Modelled from the spec: the breaker implementation is the third-party
`pybreaker` library, not part of this repository's sources; §4.8 of the
specification gives its state machine (closed → open after `fail_max`
consecutive failures → half-open probe after `reset_timeout` → closed on
probe success, reopen on probe failure).  The half-open state is
transient within a single sequential call, so the stored mode is either
closed or open-with-timestamp. -/

/-- Stored breaker mode: closed, or open since time `openedAt`. -/
inductive CBMode where
  | closed
  | opened (openedAt : ℕ)
  deriving Repr, DecidableEq

/-- Breaker state: consecutive-failure counter plus mode. -/
structure CBState where
  failCount : ℕ
  mode : CBMode
  deriving Repr, DecidableEq

/-- Result of one guarded call. -/
inductive CBResult (α : Type) where
  | success (a : α)
  | opFailed
  | circuitOpen
  deriving Repr, DecidableEq

/-- Modelled from the spec: `CircuitBreaker.call` (spec §4.8).  While
closed, the operation runs: success resets the counter, failure
increments it and opens the breaker at `fail_max`.  While open, a call
before `openedAt + reset_timeout` fails fast without running the
operation; the first call at or after that instant runs the operation as
the half-open probe — success closes the breaker with a zero counter,
failure reopens it at the current time. -/
def cbCall {α : Type} (fail_max reset_timeout : ℕ) (st : CBState) (now : ℕ)
    (op : Except Unit α) : CBResult α × CBState :=
  match st.mode with
  | .closed =>
    match op with
    | .ok a => (.success a, ⟨0, .closed⟩)
    | .error _ =>
      if fail_max ≤ st.failCount + 1 then (.opFailed, ⟨st.failCount + 1, .opened now⟩)
      else (.opFailed, ⟨st.failCount + 1, .closed⟩)
  | .opened t =>
    if t + reset_timeout ≤ now then
      match op with
      | .ok a => (.success a, ⟨0, .closed⟩)
      | .error _ => (.opFailed, ⟨st.failCount + 1, .opened now⟩)
    else (.circuitOpen, st)

/-- `fail_max` of `llm_breaker` (pipeline.py line 32). -/
def llm_fail_max : ℕ := 10

/-- `reset_timeout` of `llm_breaker` (pipeline.py line 32). -/
def llm_reset_timeout : ℕ := 120

/-- State after `n` consecutive failing calls at time `now`, starting
from a fresh closed breaker. -/
def failNTimes (fail_max reset_timeout now : ℕ) : ℕ → CBState
  | 0 => ⟨0, .closed⟩
  | n + 1 =>
    (cbCall (α := Unit) fail_max reset_timeout
      (failNTimes fail_max reset_timeout now n) now (.error ())).2

/-! ### Chat endpoint caching (`chat`, routes.py lines 70-183)

The Redis cache is modelled as an association list from keys to
(payload, expiry-time); `setex k ttl v` at time `now` stores expiry
`now + ttl`, and a `get` at time `t` hits iff `t < expiry`.  JSON
serialization round-trips are modelled as the identity.  The RAG
pipeline behind the endpoint is abstracted as a function from the
question to its structured result (routes.py line 132). -/

/-- The structured result of `search_and_respond` as consumed by the
route (field accesses `result.get(...)` at routes.py lines 135-170). -/
structure RagResult where
  response : Option String
  sources : List SourceEntry
  confidence : ℚ
  latency : ℚ
  pii_masked : Bool
  pii_entities : List PiiEntity
  masked_question : Option String
  error : Option String
  deriving Repr, DecidableEq

/-- The payload cached on a successful response (routes.py lines
138-146). -/
structure CachePayload where
  response : String
  sources : List SourceEntry
  confidence : ℚ
  latency : ℚ
  pii_masked : Bool
  pii_entities : List PiiEntity
  masked_question : Option String
  deriving Repr, DecidableEq

/-- The modelled Redis store: key, payload, absolute expiry time. -/
abbrev RedisState := List (String × CachePayload × ℕ)

/-- `redis.get` at time `now`: the stored value if present and not yet
expired. -/
def redisGet (st : RedisState) (k : String) (now : ℕ) : Option CachePayload :=
  match st.find? (fun e => e.1 == k) with
  | some e => if now < e.2.2 then some e.2.1 else none
  | none => none

/-- `redis.setex k ttl v` at time `now`. -/
def redisSetex (st : RedisState) (k : String) (ttl : ℕ) (v : CachePayload)
    (now : ℕ) : RedisState :=
  (k, v, now + ttl) :: st.filter (fun e => e.1 != k)

/-- The `ChatResponse` model of routes.py lines 54-65. -/
structure ChatResp where
  response : Option String := none
  sources : List SourceEntry := []
  confidence : ℚ := 0
  latency : ℚ := 0
  pii_masked : Bool := false
  pii_entities : List PiiEntity := []
  masked_question : Option String := none
  active_users : ℕ := 0
  is_cached : Bool := false
  error : Option String := none
  deriving Repr, DecidableEq

/-- Environment of the chat endpoint: the hash function (sha256
hexdigest, abstract), whether the Redis URL is configured, whether Redis
calls succeed (a raised cache error is swallowed and treated as a
miss/no-op, routes.py lines 127-128 and 149-150), the abstracted RAG
pipeline, and the active-user count reported by the metrics block. -/
structure ChatEnv where
  hash : String → String
  redisConfigured : Bool
  redisOk : Bool
  rag : String → RagResult
  activeCount : ℕ

/-- The cache key of routes.py lines 105-106:
`"rag_cache:" + sha256("core-brain:" + question.strip().lower())`. -/
def cacheKey (env : ChatEnv) (question : String) : String :=
  "rag_cache:" ++ env.hash ("core-brain:" ++ pyLower (pyStrip question))

/-- The caching skeleton of the `chat` endpoint (routes.py lines
97-183): cache lookup unless bypassed, short-circuit on hit with
`is_cached = true`, otherwise run the pipeline, cache a successful
(non-empty) response with a 3600-second TTL, and return the live result
with `is_cached = false`. -/
def chat (env : ChatEnv) (st : RedisState) (now : ℕ) (bypass_cache : Bool)
    (question : String) : ChatResp × RedisState :=
  let useCache := env.redisConfigured && !bypass_cache
  let key := cacheKey env question
  let hit : Option CachePayload :=
    if useCache && env.redisOk then redisGet st key now else none
  match hit with
  | some p =>
    ({ response := some p.response, sources := p.sources,
       confidence := p.confidence, latency := p.latency,
       pii_masked := p.pii_masked, pii_entities := p.pii_entities,
       masked_question := p.masked_question,
       active_users := env.activeCount, is_cached := true, error := none }, st)
  | none =>
    let result := env.rag question
    let st1 :=
      match result.response with
      | some r =>
        if useCache && env.redisOk && r != "" then
          redisSetex st key 3600
            { response := r, sources := result.sources,
              confidence := result.confidence, latency := result.latency,
              pii_masked := result.pii_masked,
              pii_entities := result.pii_entities,
              masked_question := result.masked_question } now
        else st
      | none => st
    ({ response := result.response, sources := result.sources,
       confidence := result.confidence, latency := result.latency,
       pii_masked := result.pii_masked, pii_entities := result.pii_entities,
       masked_question := result.masked_question,
       active_users := env.activeCount, is_cached := false,
       error := result.error }, st1)

/-! ### Auxiliary definitions for statements and concrete instances -/

/-- The character preceding the scan position of `searchWhole`: the last
character of the consumed prefix `pre`, or the initial `prev` when `pre`
is empty. -/
def lastOr (pre : List Char) (prev : Option Char) : Option Char :=
  match pre.getLast? with
  | some c => some c
  | none => prev

/-- A PII engine that finds nothing (both calls succeed). -/
def benignMask : MaskEnv :=
  { analyze := fun _ => .ok [], anonymize := fun t _ => .ok t }

/-- A PII engine whose analyzer raises. -/
def failMask : MaskEnv :=
  { analyze := fun _ => .error "engine down", anonymize := fun t _ => .ok t }

/-- A concrete knowledge-base chunk. -/
def sampleDoc : Doc :=
  { page_content := "Section 154 CrPC: how to file an FIR.",
    source := some "laws.pdf", page := some 0 }

/-- A pipeline environment whose store returns a well-formed similarity
score of 1/2 and whose generation call succeeds. -/
def okEnv : PipelineEnv :=
  { maskEnv := benignMask, dbAvailable := true,
    search := fun _ => .ok [(sampleDoc, 1/2)],
    generate := fun _ _ _ => .ok ("Here is the answer.", 1/10) }

/-- A pipeline environment whose cosine index returns a negative
similarity score of -1/2 for the top result (opposite vectors are scored
-1 by a cosine metric, as noted at pipeline.py line 491). -/
def negScoreEnv : PipelineEnv :=
  { maskEnv := benignMask, dbAvailable := true,
    search := fun _ => .ok [(sampleDoc, -(1/2))],
    generate := fun _ _ _ => .ok ("Here is the answer.", 1/10) }

/-- First upload of a document at a fixed path. -/
def uploadDoc1 : Doc :=
  { page_content := "old content", source := some "/tmp/up/report.pdf", page := some 0 }

/-- Second upload of the same path with different content. -/
def uploadDoc2 : Doc :=
  { page_content := "new content, longer", source := some "/tmp/up/report.pdf", page := some 0 }

/-- Ingestion environment for the first upload. -/
def ingestEnv1 : IngestEnv :=
  { dbAvailable := true,
    load := fun p => if p = "/tmp/up/report.pdf" then .ok [uploadDoc1] else .missing,
    split := fun d => [d.page_content], now := "2025-01-01T00:00:00", addOk := true }

/-- Ingestion environment for the second upload of the same path. -/
def ingestEnv2 : IngestEnv :=
  { dbAvailable := true,
    load := fun p => if p = "/tmp/up/report.pdf" then .ok [uploadDoc2] else .missing,
    split := fun d => [d.page_content], now := "2025-01-02T00:00:00", addOk := true }

/-- An ingestion environment whose store connection is unavailable. -/
def ingestEnvDown : IngestEnv :=
  { dbAvailable := false,
    load := fun p => if p = "/tmp/up/report.pdf" then .ok [uploadDoc1] else .missing,
    split := fun d => [d.page_content], now := "2025-01-01T00:00:00", addOk := true }

/-- A permanent (core) chunk: no `is_temporary` tag. -/
def coreDoc : Doc :=
  { page_content := "core law text", source := some "core.pdf", page := some 0 }

/-- A temporary uploaded chunk. -/
def tempDoc : Doc :=
  { page_content := "session upload", source := some "up.pdf", page := some 0,
    is_temporary := some true, upload_timestamp := some "2025-01-01T00:00:00" }

/-- A chat-endpoint environment with a working cache and a fixed
successful pipeline result. -/
def chatEnvW : ChatEnv :=
  { hash := fun s => s, redisConfigured := true, redisOk := true,
    rag := fun _ =>
      { response := some "Here is the answer.", sources := [], confidence := 90,
        latency := 1, pii_masked := false, pii_entities := [],
        masked_question := none, error := none },
    activeCount := 1 }

end CitizenSafety

namespace CitizenSafety

/-! ## Helper lemmas -/

theorem roundHalfEven_nonneg {x : ℚ} (hx : 0 ≤ x) : 0 ≤ roundHalfEven x := by
  have hf : (0 : ℤ) ≤ ⌊x⌋ := Int.floor_nonneg.mpr hx
  unfold roundHalfEven
  dsimp only
  split
  · exact hf
  · split
    · omega
    · split
      · exact hf
      · omega

theorem roundHalfEven_le {x : ℚ} {n : ℤ} (hx : x ≤ (n : ℚ)) : roundHalfEven x ≤ n := by
  have hf : ⌊x⌋ ≤ n := Int.floor_le_floor (α := ℚ) hx |>.trans_eq (Int.floor_intCast n)
  unfold roundHalfEven
  dsimp only
  split
  · exact hf
  · rename_i h1
    have hlt : ⌊x⌋ < n := by
      rcases lt_or_eq_of_le hf with h | h
      · exact h
      · exfalso
        have : x - (⌊x⌋ : ℚ) ≤ 0 := by
          have := Int.floor_intCast (α := ℚ) n
          have hxx : x ≤ (⌊x⌋ : ℚ) := by rw [h]; exact_mod_cast hx
          linarith
        linarith
    split
    · omega
    · split
      · omega
      · omega


/-- Bounds for the rounded confidence: a similarity in `[0, 1]` yields a
rounded `similarity * 100` in `[0, 100]`. -/
theorem pyRound1_confidence_bounds {s : ℚ} (h0 : 0 ≤ s) (h1 : s ≤ 1) :
    0 ≤ pyRound 1 (s * 100) ∧ pyRound 1 (s * 100) ≤ 100 := by
  have hlo : (0 : ℚ) ≤ s * 100 * (10 : ℚ) ^ 1 := by nlinarith
  have hhi : s * 100 * (10 : ℚ) ^ 1 ≤ ((1000 : ℤ) : ℚ) := by push_cast; nlinarith
  have ha := roundHalfEven_nonneg hlo
  have hb := roundHalfEven_le hhi
  unfold pyRound
  constructor
  · positivity
  · rw [div_le_iff₀ (by norm_num)]
    calc (roundHalfEven (s * 100 * (10 : ℚ) ^ 1) : ℚ) ≤ ((1000 : ℤ) : ℚ) := by exact_mod_cast hb
    _ = 100 * (10 : ℚ) ^ 1 := by norm_num

theorem lastOr_none (pre : List Char) : lastOr pre none = pre.getLast? := by
  unfold lastOr
  cases h : pre.getLast? <;> simp

theorem lastOr_cons (c : Char) (pre : List Char) (prev : Option Char) :
    lastOr (c :: pre) prev = lastOr pre (some c) := by
  cases pre with
  | nil => simp [lastOr]
  | cons x xs =>
    have hs : (x :: xs).getLast?.isSome = true := List.getLast?_isSome.mpr (by simp)
    obtain ⟨y, hy⟩ := Option.isSome_iff_exists.mp hs
    unfold lastOr
    rw [List.getLast?_cons_cons, hy]

theorem matchesAt_iff (pat : List Char) :
    ∀ txt, matchesAt pat txt = true ↔ ∃ post, txt = pat ++ post := by
  induction pat with
  | nil => intro txt; simp [matchesAt]
  | cons p ps ih =>
    intro txt
    cases txt with
    | nil =>
      simp only [matchesAt, List.cons_append]
      constructor
      · intro h; cases h
      · rintro ⟨post, h⟩; cases h
    | cons t ts =>
      simp only [matchesAt, Bool.and_eq_true, beq_iff_eq, ih ts, List.cons_append,
        List.cons.injEq]
      constructor
      · rintro ⟨rfl, post, rfl⟩; exact ⟨post, rfl, rfl⟩
      · rintro ⟨post, rfl, rfl⟩; exact ⟨rfl, post, rfl⟩

theorem matchWholeAt_iff (pat : List Char) (prev : Option Char) (txt : List Char) :
    matchWholeAt pat prev txt = true ↔
      ∃ post, txt = pat ++ post ∧ wordBoundary prev pat.head? = true ∧
        wordBoundary pat.getLast? post.head? = true := by
  unfold matchWholeAt
  simp only [Bool.and_eq_true, matchesAt_iff]
  constructor
  · rintro ⟨⟨⟨post, rfl⟩, hb1⟩, hb2⟩
    rw [List.drop_left] at hb2
    exact ⟨post, rfl, hb1, hb2⟩
  · rintro ⟨post, rfl, hb1, hb2⟩
    exact ⟨⟨⟨post, rfl⟩, hb1⟩, by rwa [List.drop_left]⟩

theorem searchWhole_iff (pat : List Char) (hpat : pat ≠ []) :
    ∀ (txt : List Char) (prev : Option Char),
      searchWhole pat prev txt = true ↔
        ∃ pre post, txt = pre ++ pat ++ post ∧
          wordBoundary (lastOr pre prev) pat.head? = true ∧
          wordBoundary pat.getLast? post.head? = true := by
  intro txt
  induction txt with
  | nil =>
    intro prev
    show matchWholeAt pat prev [] = true ↔ _
    rw [matchWholeAt_iff]
    constructor
    · rintro ⟨post, hp, -, -⟩
      exact absurd (List.append_eq_nil.mp hp.symm).1 hpat
    · rintro ⟨pre, post, hp, -, -⟩
      have h1 := List.append_eq_nil.mp hp.symm
      exact absurd (List.append_eq_nil.mp h1.1).2 hpat
  | cons c rest ih =>
    intro prev
    show (matchWholeAt pat prev (c :: rest) || searchWhole pat (some c) rest) = true ↔ _
    rw [Bool.or_eq_true, matchWholeAt_iff, ih (some c)]
    constructor
    · rintro (⟨post, hpost, hb1, hb2⟩ | ⟨pre, post, hpost, hb1, hb2⟩)
      · refine ⟨[], post, by simpa using hpost, ?_, hb2⟩
        simpa [lastOr] using hb1
      · refine ⟨c :: pre, post, by simp [hpost], ?_, hb2⟩
        rwa [lastOr_cons]
    · rintro ⟨pre, post, hpost, hb1, hb2⟩
      cases pre with
      | nil =>
        left
        refine ⟨post, by simpa using hpost, ?_, hb2⟩
        simpa [lastOr] using hb1
      | cons c' pre' =>
        right
        simp only [List.cons_append, List.cons.injEq] at hpost
        obtain ⟨rfl, hrest⟩ := hpost
        refine ⟨pre', post, hrest, ?_, hb2⟩
        rwa [lastOr_cons] at hb1

theorem bad_words_data_ne : ∀ w ∈ bad_words, w.data ≠ [] := by
  intro w hw
  fin_cases hw <;> decide

/-! ## Claims -/

/-- C3: `is_abusive` returns true iff the text contains a deny-listed
term as a whole word, matched case-insensitively (a term embedded inside
a longer token does not match); and whenever `is_abusive` holds,
`search_and_respond` returns the fixed rejection result (error set,
response `None`, confidence 0, empty sources, latency 0) with an empty
external-call trace, i.e. before PII masking and before any external
call. -/
theorem c3_abuse_filter :
    (∀ t : String, is_abusive t = true ↔ ∃ w ∈ bad_words, ContainsWholeWord t w)
    ∧ (∀ (env : PipelineEnv) (q : String) (hist : List ChatMsg), is_abusive q = true →
        search_and_respond env q hist = (rejection "Professional queries only.", [])) := by
  constructor
  · intro t
    rw [is_abusive, List.any_eq_true]
    constructor
    · rintro ⟨w, hw, hsearch⟩
      have hne := bad_words_data_ne w hw
      rw [searchWhole_iff w.data hne] at hsearch
      obtain ⟨pre, post, h1, h2, h3⟩ := hsearch
      rw [lastOr_none] at h2
      exact ⟨w, hw, pre, post, h1, h2, h3⟩
    · rintro ⟨w, hw, pre, post, h1, h2, h3⟩
      have hne := bad_words_data_ne w hw
      refine ⟨w, hw, ?_⟩
      rw [searchWhole_iff w.data hne]
      exact ⟨pre, post, h1, by rwa [lastOr_none], h3⟩
  · intro env q hist habuse
    unfold search_and_respond
    simp [habuse]

/-- Witness for C3: a concrete abusive question (uppercase, whole word)
is rejected with the fixed result and no external calls. -/
theorem c3_abuse_filter_witness :
    is_abusive "Please KILL the noise" = true ∧
    search_and_respond okEnv "Please KILL the noise" [] =
      (rejection "Professional queries only.", []) :=
  ⟨by decide, c3_abuse_filter.2 okEnv "Please KILL the noise" [] (by decide)⟩

/-- C1 counterexample: the code does not clamp the confidence.  With a
cosine index returning a negative top similarity (-1/2, legal for a
cosine metric whose scores range over [-1, 1], as the code's own comment
at pipeline.py lines 489-491 notes), retrieval and generation succeed
and `search_and_respond` returns confidence -50, outside [0, 100]. -/
theorem c1_confidence_counterexample :
    rget (search_and_respond negScoreEnv "What are my rights" []).1 "confidence"
        = some (.vnum (-50)) ∧ (-50 : ℚ) < 0 := by
  have ha : is_abusive "What are my rights" = false := by decide
  have hval : pyRound 1 ((-50 : ℚ)) = -50 := by
    unfold pyRound roundHalfEven
    norm_num
  refine ⟨?_, by norm_num⟩
  simp only [search_and_respond, ha, Bool.false_eq_true, if_false, negScoreEnv,
    benignMask, mask_pii, Bool.not_true, rget]
  norm_num [hval]
  exact ⟨"confidence", Or.inr ⟨by decide, Or.inr ⟨by decide, rfl⟩⟩⟩

/-- C1 amended: on a fully successful run, the confidence returned by
`search_and_respond` equals the top result's similarity × 100 (rounded
to one decimal), and it lies in [0, 100] provided the top similarity
itself lies in [0, 1]; no clamping is applied, so the bound comes from
the score hypothesis, not from the code. -/
theorem c1_confidence_amended (env : PipelineEnv) (q : String) (hist : List ChatMsg)
    (d : Doc) (s : ℚ) (rest : List (Doc × ℚ)) (resp : String) (lat : ℚ)
    (ha : is_abusive q = false)
    (hdb : env.dbAvailable = true)
    (hsearch : env.search (mask_pii env.maskEnv q).1 = .ok ((d, s) :: rest))
    (hgen : ∀ c h, env.generate (mask_pii env.maskEnv q).1 c h = .ok (resp, lat))
    (h0 : 0 ≤ s) (h1 : s ≤ 1) :
    rget (search_and_respond env q hist).1 "confidence"
        = some (.vnum (pyRound 1 (s * 100)))
      ∧ 0 ≤ pyRound 1 (s * 100) ∧ pyRound 1 (s * 100) ≤ 100 := by
  have hb := pyRound1_confidence_bounds h0 h1
  refine ⟨?_, hb.1, hb.2⟩
  unfold search_and_respond
  dsimp only
  simp only [ha, Bool.false_eq_true, if_false, hdb, Bool.not_true, hsearch, hgen]
  rfl

/-- Witness for C1: a concrete environment with top similarity 1/2. -/
theorem c1_confidence_amended_witness :
    rget (search_and_respond okEnv "How do I file an FIR" []).1 "confidence"
        = some (.vnum (pyRound 1 ((1/2 : ℚ) * 100)))
      ∧ 0 ≤ pyRound 1 ((1/2 : ℚ) * 100) ∧ pyRound 1 ((1/2 : ℚ) * 100) ≤ 100 :=
  c1_confidence_amended okEnv "How do I file an FIR" [] sampleDoc (1/2) []
    "Here is the answer." (1/10)
    (by decide) rfl rfl (fun _ _ => rfl) (by norm_num) (by norm_num)

/-- C2 counterexample: the rejection paths do not carry the PII keys.
On an abusive input the returned dictionary has no `pii_masked` key at
all (nor `pii_entities`, `masked_question`), refuting the claim that
every terminal path returns all eight keys. -/
theorem c2_result_shape_counterexample :
    ((search_and_respond okEnv "That idea is stupid" []).1.map Prod.fst).contains "pii_masked"
      = false := by decide

/-- C2 amended: every terminal path of `search_and_respond` returns one
of exactly two shapes: the five-key failure dictionary
`{error, response, sources, confidence, latency}` with `error` a string
and `response = None`, or the seven-key success dictionary
`{response, sources, confidence, latency, pii_masked, pii_entities,
masked_question}` with `response` a string and no `error` key. -/
theorem c2_result_shape_amended (env : PipelineEnv) (q : String) (hist : List ChatMsg) :
    ((search_and_respond env q hist).1.map Prod.fst =
        ["error", "response", "sources", "confidence", "latency"]
      ∧ (∃ msg, rget (search_and_respond env q hist).1 "error" = some (.vstr msg))
      ∧ rget (search_and_respond env q hist).1 "response" = some .vnull)
    ∨ ((search_and_respond env q hist).1.map Prod.fst =
        ["response", "sources", "confidence", "latency", "pii_masked",
         "pii_entities", "masked_question"]
      ∧ (∃ s, rget (search_and_respond env q hist).1 "response" = some (.vstr s))
      ∧ rget (search_and_respond env q hist).1 "error" = none) := by
  unfold search_and_respond
  dsimp only
  split
  · left; exact ⟨rfl, ⟨_, rfl⟩, rfl⟩
  · split
    · left; exact ⟨rfl, ⟨_, rfl⟩, rfl⟩
    · split
      · left; exact ⟨rfl, ⟨_, rfl⟩, rfl⟩
      · left; exact ⟨rfl, ⟨_, rfl⟩, rfl⟩
      · split
        · left; exact ⟨rfl, ⟨_, rfl⟩, rfl⟩
        · right; exact ⟨rfl, ⟨_, rfl⟩, rfl⟩

/-- C4: on every path of `search_and_respond`, every knowledge-base
search and every generation call in the external-call trace carries
exactly the masked text produced by `mask_pii`; the raw question is
never forwarded to either once masking has run. -/
theorem c4_masked_text_only (env : PipelineEnv) (q : String) (hist : List ChatMsg) :
    ((search_and_respond env q hist).2.all (fun e =>
      match e with
      | .searchCall t => t == (mask_pii env.maskEnv q).1
      | .generateCall t => t == (mask_pii env.maskEnv q).1
      | _ => true)) = true := by
  unfold search_and_respond
  dsimp only
  split
  · rfl
  · split
    · simp
    · split
      · simp
      · simp
      · split
        · simp
        · simp

/-- C8: if any internal step of `mask_pii` fails — the analyzer raises,
or the anonymizer raises on the analyzer's kept results — the function
returns the original unmasked text with `found = false` and an empty
entity list.  (The embedding is a total function, so no exception
escapes to the caller on these paths.) -/
theorem c8_mask_pii_fail_open (env : MaskEnv) (text : String)
    (h : (∃ e, env.analyze text = .error e) ∨
         (∃ rs e, env.analyze text = .ok rs ∧
            env.anonymize text (rs.filter (fun r => (3 : ℚ)/10 ≤ r.score)) = .error e)) :
    mask_pii env text = (text, false, []) := by
  unfold mask_pii
  rcases h with ⟨e, he⟩ | ⟨rs, e, hok, herr⟩
  · rw [he]
  · rw [hok]
    dsimp only
    rw [herr]

/-- Witness for C8: an analyzer that raises makes `mask_pii` pass the
text through unmasked. -/
theorem c8_mask_pii_fail_open_witness :
    mask_pii failMask "My number is 9876543210" = ("My number is 9876543210", false, []) :=
  c8_mask_pii_fail_open failMask "My number is 9876543210" (Or.inl ⟨"engine down", rfl⟩)

/-- C9: `clear_temporary_knowledge` removes only chunks tagged
`is_temporary = true`: every chunk not carrying that tag survives, and
every chunk that is removed carried the tag. -/
theorem c9_clear_temporary_surgical (ok : Bool) (store : List Doc) :
    (∀ c ∈ store, c.is_temporary ≠ some true → c ∈ (clear_temporary_knowledge ok store).2)
    ∧ (∀ c ∈ store, c ∉ (clear_temporary_knowledge ok store).2 → c.is_temporary = some true) := by
  unfold clear_temporary_knowledge
  cases ok with
  | false =>
    constructor
    · intro c hc _; simpa using hc
    · intro c hc habs; simp at habs; exact absurd hc habs
  | true =>
    constructor
    · intro c hc hne
      simp only [if_true, List.mem_filter]
      refine ⟨hc, ?_⟩
      simp only [Bool.not_eq_true']
      exact (Bool.not_eq_true _).mp (by simpa using hne)
    · intro c hc habs
      by_contra hne
      apply habs
      simp only [if_true, List.mem_filter]
      exact ⟨hc, by simp [hne]⟩

/-- Witness for C9: a core chunk (no temporary tag) survives clearing a
store that also holds a temporary chunk. -/
theorem c9_clear_temporary_surgical_witness :
    coreDoc ∈ (clear_temporary_knowledge true [coreDoc, tempDoc]).2 :=
  (c9_clear_temporary_surgical true [coreDoc, tempDoc]).1 coreDoc (by simp) (by decide)

theorem producedChunks_length (env : IngestEnv) (paths : List String) :
    (producedChunks env paths).length =
      (paths.map (fun p => match env.load p with
        | .ok docs => (tagAndSplit env docs).length
        | _ => 0)).sum := by
  induction paths with
  | nil => simp [producedChunks]
  | cons p ps ih =>
    simp only [producedChunks, List.flatMap_cons, List.length_append, List.map_cons,
      List.sum_cons] at *
    cases h : env.load p <;> simp [h, ih]

/-- C10: `add_documents_incremental` is total over all outcomes of its
environment.  Its return value is 0 when the store connection is
unavailable (store untouched) or when writing nonempty chunks fails, and
otherwise the number of chunks produced from the files that loaded
successfully; missing paths and loader failures contribute no chunks. -/
theorem c10_ingest_total (env : IngestEnv) (store : List Doc) (paths : List String) :
    ((add_documents_incremental env store paths).1 =
       if env.dbAvailable = false then 0
       else if producedChunks env paths ≠ [] ∧ env.addOk = false then 0
       else (paths.map (fun p => match env.load p with
              | .ok docs => (tagAndSplit env docs).length
              | _ => 0)).sum)
    ∧ (env.dbAvailable = false → add_documents_incremental env store paths = (0, store))
    ∧ (∀ p ps, (env.load p = .missing ∨ env.load p = .loadError) →
         producedChunks env (p :: ps) = producedChunks env ps) := by
  refine ⟨?_, ?_, ?_⟩
  · cases hdb : env.dbAvailable with
    | false => simp [add_documents_incremental, hdb]
    | true =>
      unfold add_documents_incremental
      rw [hdb]
      simp only [Bool.not_true, Bool.false_eq_true, if_false]
      by_cases hempty : (producedChunks env paths).isEmpty
      · rw [if_pos hempty]
        have := producedChunks_length env paths
        rw [List.isEmpty_iff] at hempty
        simp [hempty] at this
        simp [hempty, ← this]
      · rw [if_neg hempty]
        rw [List.isEmpty_iff] at hempty
        cases haddOk : env.addOk with
        | true => simp [haddOk, producedChunks_length]
        | false => simp [haddOk, hempty]
  · intro h; simp [add_documents_incremental, h]
  · intro p ps h
    unfold producedChunks
    rcases h with h | h <;> simp [List.flatMap_cons, h, producedChunks]

/-- Witness for C10: an unavailable store returns (0, unchanged store);
a missing path contributes no chunks. -/
theorem c10_ingest_total_witness :
    add_documents_incremental ingestEnvDown [] ["/tmp/up/report.pdf"] = (0, [])
    ∧ producedChunks ingestEnv1 ["ghost.pdf", "/tmp/up/report.pdf"]
        = producedChunks ingestEnv1 ["/tmp/up/report.pdf"] :=
  ⟨(c10_ingest_total ingestEnvDown [] ["/tmp/up/report.pdf"]).2.1 rfl,
   (c10_ingest_total ingestEnv1 [] []).2.2 "ghost.pdf" ["/tmp/up/report.pdf"] (Or.inl rfl)⟩

theorem tagAndSplit_mem (env : IngestEnv) (docs : List Doc) :
    ∀ c ∈ tagAndSplit env docs, c.is_temporary = some true ∧ ∃ d ∈ docs, c.source = d.source := by
  intro c hc
  unfold tagAndSplit at hc
  simp only [List.mem_flatMap, List.mem_map] at hc
  obtain ⟨d', ⟨d, hd, rfl⟩, piece, hpiece, rfl⟩ := hc
  exact ⟨rfl, d, hd, rfl⟩

/-- C5: re-ingesting the same source path deletes the previously indexed
temporary chunks for that exact source before adding the new ones: after
two successive ingestions of path `p`, the temporary chunks stored for
source `p` are exactly the chunks of the second ingestion (no duplicates
from the first pass), and the returned count is the second ingestion's
chunk count.  The loader is assumed to stamp each document with its own
path as `source` (as `PyMuPDFLoader` does), which is what makes the
exact-match delete line up with what was previously added. -/
theorem c5_reingest_no_duplicates (env1 env2 : IngestEnv) (store : List Doc) (p : String)
    (docs2 : List Doc)
    (hp : p ≠ "")
    (hdb2 : env2.dbAvailable = true) (hadd2 : env2.addOk = true)
    (hload2 : env2.load p = .ok docs2)
    (hsrc2 : ∀ d ∈ docs2, d.source = some p)
    (hne2 : producedChunks env2 [p] ≠ []) :
    ((add_documents_incremental env2 (add_documents_incremental env1 store [p]).2 [p]).2).filter
        (fun c => c.source == some p && c.is_temporary == some true)
      = producedChunks env2 [p]
    ∧ (add_documents_incremental env2 (add_documents_incremental env1 store [p]).2 [p]).1
      = (producedChunks env2 [p]).length := by
  set s1 := (add_documents_incremental env1 store [p]).2 with hs1
  set ch2 := producedChunks env2 [p] with hch2
  have hprops : ∀ c ∈ ch2, c.is_temporary = some true ∧ c.source = some p := by
    intro c hc
    rw [hch2] at hc
    simp only [producedChunks, List.flatMap_cons, List.flatMap_nil, List.append_nil,
      hload2] at hc
    obtain ⟨htemp, d, hd, hsrc⟩ := tagAndSplit_mem env2 docs2 c hc
    exact ⟨htemp, hsrc.trans (hsrc2 d hd)⟩
  have hmem_srcs : ∀ s, s ∈ uniqueSources ch2 ↔ s = p := by
    intro s
    unfold uniqueSources
    rw [List.mem_dedup, List.mem_filter, List.mem_filterMap]
    constructor
    · rintro ⟨⟨c, hc, hcs⟩, -⟩
      have := (hprops c hc).2
      rw [this] at hcs
      exact (Option.some.injEq _ _).mp hcs.symm
    · rintro rfl
      obtain ⟨c, hc⟩ := List.exists_mem_of_ne_nil ch2 hne2
      refine ⟨⟨c, hc, (hprops c hc).2⟩, by simpa using hp⟩
  have hdel : ∀ c : Doc, deleteMatch (uniqueSources ch2) c
      = (c.source == some p && c.is_temporary == some true) := by
    intro c
    unfold deleteMatch
    cases hcs : c.source with
    | none => simp
    | some s =>
      by_cases hsp : s = p
      · subst hsp
        have hmem : s ∈ uniqueSources ch2 := (hmem_srcs s).mpr rfl
        simp [List.contains, List.elem_iff, hmem]
      · have hnmem : s ∉ uniqueSources ch2 := fun h => hsp ((hmem_srcs s).mp h)
        simp [List.contains, List.elem_iff, hnmem, hsp]
  have hrun : add_documents_incremental env2 s1 [p]
      = (ch2.length, s1.filter (fun c => !deleteMatch (uniqueSources ch2) c) ++ ch2) := by
    unfold add_documents_incremental
    rw [hdb2]
    simp only [Bool.not_true, Bool.false_eq_true, if_false, ← hch2]
    rw [if_neg (by simpa [List.isEmpty_iff] using hne2)]
    rw [hadd2]
    simp
  rw [hrun]
  constructor
  · rw [List.filter_append]
    have h1 : (s1.filter (fun c => !deleteMatch (uniqueSources ch2) c)).filter
        (fun c => c.source == some p && c.is_temporary == some true) = [] := by
      rw [List.filter_filter]
      apply List.filter_eq_nil_iff.mpr
      intro c hc
      rw [hdel c]
      simp
    have h2 : ch2.filter (fun c => c.source == some p && c.is_temporary == some true) = ch2 := by
      apply List.filter_eq_self.mpr
      intro c hc
      have := hprops c hc
      simp [this.1, this.2]
    rw [h1, h2, List.nil_append]
  · rfl

/-- Witness for C5: a concrete double ingestion of the same path on a
store holding a core chunk. -/
theorem c5_reingest_no_duplicates_witness :
    ((add_documents_incremental ingestEnv2
        (add_documents_incremental ingestEnv1 [coreDoc] ["/tmp/up/report.pdf"]).2
        ["/tmp/up/report.pdf"]).2).filter
        (fun c => c.source == some "/tmp/up/report.pdf" && c.is_temporary == some true)
      = producedChunks ingestEnv2 ["/tmp/up/report.pdf"]
    ∧ (add_documents_incremental ingestEnv2
        (add_documents_incremental ingestEnv1 [coreDoc] ["/tmp/up/report.pdf"]).2
        ["/tmp/up/report.pdf"]).1
      = (producedChunks ingestEnv2 ["/tmp/up/report.pdf"]).length :=
  c5_reingest_no_duplicates ingestEnv1 ingestEnv2 [coreDoc] "/tmp/up/report.pdf" [uploadDoc2]
    (by decide) rfl rfl rfl
    (by intro d hd; rw [List.mem_singleton] at hd; subst hd; rfl)
    (by decide)

/-- C6 (modelled from the spec; the breaker implementation is the
third-party `pybreaker` package, configured at pipeline.py line 32 with
`fail_max = 10`, `reset_timeout = 120` and invoked around the generation
call at line 418): after `fail_max` consecutive failing calls the
breaker is open; while open and before `reset_timeout` has elapsed,
every call — whatever its operation, which is therefore not invoked —
fails fast with `circuitOpen` and leaves the state unchanged; once
`reset_timeout` has elapsed the next call runs as the single probe, and
a successful probe closes the breaker with the consecutive-failure
counter reset to zero (a failing probe reopens it at the current time,
so later calls are again fast-failed until another timeout). -/
theorem c6_breaker_protocol :
    (∀ t : ℕ, failNTimes llm_fail_max llm_reset_timeout t llm_fail_max
        = ⟨llm_fail_max, .opened t⟩)
    ∧ (∀ (c t now : ℕ) (op : Except Unit String), now < t + llm_reset_timeout →
        cbCall llm_fail_max llm_reset_timeout ⟨c, .opened t⟩ now op
          = (.circuitOpen, ⟨c, .opened t⟩))
    ∧ (∀ (c t now : ℕ) (a : String), t + llm_reset_timeout ≤ now →
        cbCall llm_fail_max llm_reset_timeout ⟨c, .opened t⟩ now (.ok a)
          = (.success a, ⟨0, .closed⟩))
    ∧ (∀ (c t now : ℕ), t + llm_reset_timeout ≤ now →
        cbCall (α := String) llm_fail_max llm_reset_timeout ⟨c, .opened t⟩ now (.error ())
          = (.opFailed, ⟨c + 1, .opened now⟩)) := by
  refine ⟨fun t => rfl, ?_, ?_, ?_⟩
  · intro c t now op h
    unfold cbCall
    dsimp only
    rw [if_neg (by omega)]
  · intro c t now a h
    unfold cbCall
    dsimp only
    rw [if_pos h]
  · intro c t now h
    unfold cbCall
    dsimp only
    rw [if_pos h]

/-- Witness for C6 at concrete times: open after ten failures, fast-fail
at 30s, successful probe at 120s closing with a zero counter, failing
probe at 125s reopening. -/
theorem c6_breaker_protocol_witness :
    failNTimes llm_fail_max llm_reset_timeout 0 llm_fail_max = ⟨llm_fail_max, .opened 0⟩
    ∧ cbCall llm_fail_max llm_reset_timeout ⟨10, .opened 0⟩ 30 (.ok "probe")
        = (.circuitOpen, ⟨10, .opened 0⟩)
    ∧ cbCall llm_fail_max llm_reset_timeout ⟨10, .opened 0⟩ 120 (.ok "probe")
        = (.success "probe", ⟨0, .closed⟩)
    ∧ cbCall (α := String) llm_fail_max llm_reset_timeout ⟨10, .opened 0⟩ 125 (.error ())
        = (.opFailed, ⟨11, .opened 125⟩) :=
  ⟨c6_breaker_protocol.1 0,
   c6_breaker_protocol.2.1 10 0 30 (.ok "probe") (by norm_num [llm_reset_timeout]),
   c6_breaker_protocol.2.2.1 10 0 120 "probe" (by norm_num [llm_reset_timeout]),
   c6_breaker_protocol.2.2.2 10 0 125 (by norm_num [llm_reset_timeout])⟩

/-- C7: the cache key is a deterministic hash of
`"core-brain:" + strip(lower(question))` (so questions equal modulo
surrounding whitespace and case share one key); a successful first call
writes the payload with expiry `t1 + 3600` (the 3600-second TTL); and a
second, identically-normalized question without the bypass flag within
the TTL returns the cached payload with `is_cached = true` and
`response`/`sources`/`confidence` identical to the first call's. -/
theorem c7_cache_key_and_hit (env : ChatEnv) (st0 : RedisState) (q q2 : String) (t1 t2 : ℕ) (r : String)
    (hconf : env.redisConfigured = true) (hok : env.redisOk = true)
    (hresp : (env.rag q).response = some r) (hr : r ≠ "")
    (hmiss : redisGet st0 (cacheKey env q) t1 = none)
    (hnorm : pyLower (pyStrip q2) = pyLower (pyStrip q))
    (httl : t2 < t1 + 3600) :
    (∀ s1 s2 : String, pyLower (pyStrip s1) = pyLower (pyStrip s2) →
        cacheKey env s1 = cacheKey env s2)
    ∧ (chat env st0 t1 false q).1.is_cached = false
    ∧ (chat env st0 t1 false q).2
        = (cacheKey env q,
           { response := r, sources := (env.rag q).sources,
             confidence := (env.rag q).confidence, latency := (env.rag q).latency,
             pii_masked := (env.rag q).pii_masked,
             pii_entities := (env.rag q).pii_entities,
             masked_question := (env.rag q).masked_question },
           t1 + 3600) :: st0.filter (fun e => e.1 != cacheKey env q)
    ∧ (chat env (chat env st0 t1 false q).2 t2 false q2).1.is_cached = true
    ∧ (chat env (chat env st0 t1 false q).2 t2 false q2).1.response
        = (chat env st0 t1 false q).1.response
    ∧ (chat env (chat env st0 t1 false q).2 t2 false q2).1.sources
        = (chat env st0 t1 false q).1.sources
    ∧ (chat env (chat env st0 t1 false q).2 t2 false q2).1.confidence
        = (chat env st0 t1 false q).1.confidence := by
  have hkey : cacheKey env q2 = cacheKey env q := by unfold cacheKey; rw [hnorm]
  have hrb : (r != "") = true := bne_iff_ne.mpr hr
  have h1 : chat env st0 t1 false q
      = ({ response := (env.rag q).response, sources := (env.rag q).sources,
           confidence := (env.rag q).confidence, latency := (env.rag q).latency,
           pii_masked := (env.rag q).pii_masked, pii_entities := (env.rag q).pii_entities,
           masked_question := (env.rag q).masked_question,
           active_users := env.activeCount, is_cached := false, error := (env.rag q).error },
         (cacheKey env q,
          { response := r, sources := (env.rag q).sources,
            confidence := (env.rag q).confidence, latency := (env.rag q).latency,
            pii_masked := (env.rag q).pii_masked,
            pii_entities := (env.rag q).pii_entities,
            masked_question := (env.rag q).masked_question },
          t1 + 3600) :: st0.filter (fun e => e.1 != cacheKey env q)) := by
    unfold chat
    dsimp only
    simp only [hconf, hok, Bool.not_false, Bool.and_true, Bool.and_self, if_true, hmiss,
      hresp, hrb, Bool.true_and, if_false]
    rfl
  have h2 : chat env (chat env st0 t1 false q).2 t2 false q2
      = ({ response := some r, sources := (env.rag q).sources,
           confidence := (env.rag q).confidence, latency := (env.rag q).latency,
           pii_masked := (env.rag q).pii_masked, pii_entities := (env.rag q).pii_entities,
           masked_question := (env.rag q).masked_question,
           active_users := env.activeCount, is_cached := true, error := none },
         (cacheKey env q,
          { response := r, sources := (env.rag q).sources,
            confidence := (env.rag q).confidence, latency := (env.rag q).latency,
            pii_masked := (env.rag q).pii_masked,
            pii_entities := (env.rag q).pii_entities,
            masked_question := (env.rag q).masked_question },
          t1 + 3600) :: st0.filter (fun e => e.1 != cacheKey env q)) := by
    conv_lhs => rw [h1]
    unfold chat
    dsimp only
    simp only [hconf, hok, hkey, Bool.not_false, Bool.and_true, Bool.and_self, if_true]
    unfold redisGet
    simp only [List.find?, beq_self_eq_true]
    rw [if_pos httl]
  refine ⟨?_, ?_, ?_, ?_, ?_, ?_, ?_⟩
  · intro s1 s2 h; unfold cacheKey; rw [h]
  · rw [h1]
  · rw [h1]
  · rw [h2]
  · rw [h2, h1]; exact hresp.symm
  · rw [h2, h1]
  · rw [h2, h1]

/-- Witness for C7: "Hello" then " hello " against a concrete cache
environment: miss then hit with the identical response. -/
theorem c7_cache_key_and_hit_witness :
    (chat chatEnvW [] 0 false "Hello").1.is_cached = false
    ∧ (chat chatEnvW (chat chatEnvW [] 0 false "Hello").2 100 false " hello ").1.is_cached = true
    ∧ (chat chatEnvW (chat chatEnvW [] 0 false "Hello").2 100 false " hello ").1.response
        = (chat chatEnvW [] 0 false "Hello").1.response :=
  have h := c7_cache_key_and_hit chatEnvW [] "Hello" " hello " 0 100 "Here is the answer."
    rfl rfl rfl (by decide) rfl (by decide) (by norm_num)
  ⟨h.2.1, h.2.2.2.1, h.2.2.2.2.1⟩
